import Mathlib

/-!
TruthLens backend — shallow embedding and verification.

This file embeds the product-legitimacy heuristic scorer
(`analyze_product_legitimacy`) and the `/analyze-product` handler
(`analyze_product`) of `src/backend/main.py` in Lean 4, and proves the
behavioural claims about them.

Modelling conventions:
* Python strings are Lean `String`s; most character processing works on
  `String.data : List Char`.
* Python floats are modelled as exact rationals `ℚ`.  The claims only speak
  about the symbolic formulas (`0.7 + 0.05*count`, thresholds `1.0`, `1000`,
  `2.0`, `4.0`, `0.7`, floor `0.3`), which are the same expressions in the
  source, so exact rational arithmetic is faithful for every claim here.
* The external detector is an oracle parameter of type `DetectorOutcome`:
  the handler consults it exactly when the Python code performs the HTTP
  call.  A transport error (`requests.exceptions.RequestException`) is the
  `transportError` constructor; a successful call carries the decoded JSON,
  of which the handler only inspects an optional numeric `score` field.
* Exceptions are modelled by `Option`: a parser returns `none` where the
  corresponding Python parse would raise (the `try/except: pass` blocks make
  the rule a no-op in that case, which the embedding mirrors directly).
-/

/-- Python truthiness-relevant whitespace (`str.strip` default set, ASCII
part; the source only ever strips `title + " " + description`). -/
def isPySpace (c : Char) : Bool :=
  c = ' ' || c = '\t' || c = '\n' || c = '\r' || c = '\x0b' || c = '\x0c'

/-- `bool(s.strip())` in Python: true iff some character is non-whitespace. -/
def pyStripTruthy (s : String) : Bool :=
  s.data.any (fun c => !(isPySpace c))

/-- `s.lower()` on the character list (ASCII case mapping; the fixed word
lists compared against are all ASCII). -/
def lowerData (s : String) : List Char :=
  s.data.map Char.toLower

/-- Does `needle` occur as a prefix of `hay`?  Helper for substring search. -/
def startsWith : List Char → List Char → Bool
  | [], _ => true
  | _ :: _, [] => false
  | n :: ns, h :: hs => n == h && startsWith ns hs

/-- Python's `needle in hay` substring test on character lists. -/
def occursIn (needle : List Char) : List Char → Bool
  | [] => needle.isEmpty
  | h :: t => startsWith needle (h :: t) || occursIn needle t

/-- `s.isdigit()` (ASCII digits): non-empty and all characters are digits. -/
def pyIsDigit (l : List Char) : Bool :=
  !l.isEmpty && l.all Char.isDigit

/-- Numeric value of a list of decimal digit characters (`int` of the digit
run; the runs fed to it are produced by `takeWhile Char.isDigit`). -/
def digitsVal (l : List Char) : Nat :=
  l.foldl (fun a c => a * 10 + (c.toNat - 48)) 0

/-- Split off the leading run of decimal digits. -/
def parseDigits (l : List Char) : List Char × List Char :=
  (l.takeWhile Char.isDigit, l.dropWhile Char.isDigit)

/-- Strip leading and trailing whitespace (Python `str.strip()`). -/
def stripWS (l : List Char) : List Char :=
  ((l.dropWhile isPySpace).reverse.dropWhile isPySpace).reverse

/-- Python `float(s)` on decimal literals: optional surrounding whitespace,
optional sign, digits with optional fraction part, optional exponent.
Returns `none` where `float` raises `ValueError`.  (Python additionally
accepts `inf`/`nan` and underscore digit separators; those values are not
representable in `ℚ` / not modelled, and no claim depends on them.) -/
def pyFloat? (s : String) : Option ℚ :=
  let l := stripWS s.data
  let (sgn, l1) : ℚ × List Char :=
    match l with
    | '+' :: t => (1, t)
    | '-' :: t => (-1, t)
    | t => (1, t)
  let (ip, l2) := parseDigits l1
  let (fp, l3) : List Char × List Char :=
    match l2 with
    | '.' :: t => parseDigits t
    | t => ([], t)
  if ip.isEmpty && fp.isEmpty then none
  else
    let mant : ℚ := (digitsVal ip : ℚ) + (digitsVal fp : ℚ) / 10 ^ fp.length
    match l3 with
    | [] => some (sgn * mant)
    | e :: t =>
      if e = 'e' || e = 'E' then
        let (esgn, t1) : Int × List Char :=
          match t with
          | '+' :: r => (1, r)
          | '-' :: r => (-1, r)
          | r => (1, r)
        let (ed, t2) := parseDigits t1
        if ed.isEmpty || !t2.isEmpty then none
        else some (sgn * mant * (10 : ℚ) ^ (esgn * (digitsVal ed : Int)))
      else none

/-- `re.search(r'[\d,]+\.?\d*', cleaned)` followed by `float(match.group())`,
where `cleaned` contains no commas (they were removed beforehand), so the
character class matches exactly digit runs: the value of the first maximal
digit run, optionally extended by a decimal point and a further digit run.
`none` when the string contains no digit. -/
def firstNumberVal : List Char → Option ℚ
  | [] => none
  | c :: cs =>
    if c.isDigit then
      let (ds, r1) := parseDigits (c :: cs)
      some (match r1 with
        | '.' :: r2 =>
          let fp := (parseDigits r2).1
          (digitsVal ds : ℚ) + (digitsVal fp : ℚ) / 10 ^ fp.length
        | _ => (digitsVal ds : ℚ))
    else firstNumberVal cs

/-- `re.search(r'[\d,]+', cleaned)` followed by `int(match.group())` where
`cleaned` contains no commas: the integer value of the first maximal digit
run, `none` when the string contains no digit. -/
def firstIntVal : List Char → Option Nat
  | [] => none
  | c :: cs =>
    if c.isDigit then some (digitsVal (parseDigits (c :: cs)).1)
    else firstIntVal cs

/-- The `ProductAnalysis` pydantic model: `title` required, every other
field defaults to the empty string. -/
structure ProductAnalysis where
  title : String
  description : String := ""
  price : String := ""
  seller : String := ""
  rating : String := ""
  reviews_count : String := ""
  url : String := ""
deriving DecidableEq, Repr

/-- The three classification statuses. -/
inductive Status where
  | legit
  | scam
  | uncertain
deriving DecidableEq, Repr

/-- The dictionary returned by `analyze_product_legitimacy`. -/
structure ScoreResult where
  status : Status
  confidence : ℚ
  reasons : List String
  scam_indicators : Nat
  legit_indicators : Nat
deriving DecidableEq, Repr

/-- The fixed suspicious-phrase list of the title rule. -/
def suspicious_words : List String :=
  ["urgent", "limited time", "act now", "guaranteed", "miracle", "secret",
   "exclusive offer"]

/-- A rule outcome: (scam increments, legit increments, appended reasons). -/
abbrev RuleOut := Nat × Nat × List String

/-- Rule 1 (title language): `any(word in title_lower for word in
suspicious_words)` adds one scam indicator with reason
"Suspicious language". -/
def titleRule (title : String) : RuleOut :=
  if suspicious_words.any (fun w => occursIn w.data (lowerData title)) then
    (1, 0, ["Suspicious language"])
  else (0, 0, [])

/-- `price.replace('$', '').replace(',', '')`. -/
def stripDollarComma (s : String) : List Char :=
  s.data.filter (fun c => !(c = '$' || c = ','))

/-- The value the price rule extracts: `none` for an empty price (rule
skipped by the `if product_data.price:` guard) or a price with no digit. -/
def priceExtract (price : String) : Option ℚ :=
  if price = "" then none
  else firstNumberVal (stripDollarComma price)

/-- Rule 2 (price): first numeric token of the `$`/`,`-stripped price;
below 1.0 → scam "Low price", above 1000 → legit "Normal price". -/
def priceRule (price : String) : RuleOut :=
  match priceExtract price with
  | none => (0, 0, [])
  | some v =>
    if v < 1 then (1, 0, ["Low price"])
    else if v > 1000 then (0, 1, ["Normal price"])
    else (0, 0, [])

/-- Rule 3 (seller): skipped for the empty seller; a reputable-marketplace
substring (case-insensitive) → legit "Reputable seller"; else a lowercased
length below 3 or an all-digit seller → scam "Suspicious seller". -/
def sellerRule (seller : String) : RuleOut :=
  if seller = "" then (0, 0, [])
  else
    let sl := lowerData seller
    if occursIn "amazon".data sl || occursIn "walmart".data sl ||
        occursIn "target".data sl then
      (0, 1, ["Reputable seller"])
    else if sl.length < 3 || pyIsDigit sl then
      (1, 0, ["Suspicious seller"])
    else (0, 0, [])

/-- Rule 4 (rating): skipped for the empty rating; `float(rating)` below 2.0
→ scam "Low rating", above 4.0 → legit "Good rating"; a parse failure is
swallowed by the `except: pass`. -/
def ratingRule (rating : String) : RuleOut :=
  if rating = "" then (0, 0, [])
  else
    match pyFloat? rating with
    | none => (0, 0, [])
    | some v =>
      if v < 2 then (1, 0, ["Low rating"])
      else if v > 4 then (0, 1, ["Good rating"])
      else (0, 0, [])

/-- The value the review-count rule extracts: `none` for an empty field
(rule skipped) or a field with no digit. -/
def reviewsExtract (reviews : String) : Option Nat :=
  if reviews = "" then none
  else firstIntVal (reviews.data.filter (fun c => !(c = ',')))

/-- Rule 5 (review count): first digit run of the comma-stripped field as an
integer; below 5 → scam "Few reviews", above 50 → legit "Many reviews". -/
def reviewsRule (reviews : String) : RuleOut :=
  match reviewsExtract reviews with
  | none => (0, 0, [])
  | some v =>
    if v < 5 then (1, 0, ["Few reviews"])
    else if v > 50 then (0, 1, ["Many reviews"])
    else (0, 0, [])

/-- Sequential accumulation of two rule outcomes: counters add, reasons
concatenate in evaluation order. -/
def combine (a b : RuleOut) : RuleOut :=
  (a.1 + b.1, a.2.1 + b.2.1, a.2.2 ++ b.2.2)

/-- The five rules of `analyze_product_legitimacy` evaluated in source
order, accumulating `scam_indicators`, `legit_indicators` and `reasons`. -/
def countIndicators (p : ProductAnalysis) : RuleOut :=
  combine (titleRule p.title)
    (combine (priceRule p.price)
      (combine (sellerRule p.seller)
        (combine (ratingRule p.rating) (reviewsRule p.reviews_count))))

/-- `analyze_product_legitimacy` of `src/backend/main.py`: run the five
rules, then aggregate counts into a status and confidence. -/
def analyze_product_legitimacy (p : ProductAnalysis) : ScoreResult :=
  match countIndicators p with
  | (s, l, reasons) =>
    if s > l then ⟨.scam, 0.7 + (s : ℚ) * 0.05, reasons, s, l⟩
    else if l > s then ⟨.legit, 0.7 + (l : ℚ) * 0.05, reasons, s, l⟩
    else ⟨.uncertain, 0.4, reasons, s, l⟩

/-- The detector JSON as far as the handler inspects it: the optional
numeric `score` field (`'score' in ai_result` and its value).  The full
opaque JSON body is not needed by any claim. -/
structure AIResult where
  score : Option ℚ
deriving DecidableEq, Repr

/-- Outcome of the external detector call: decoded JSON on success, or a
`requests.exceptions.RequestException` message. -/
inductive DetectorOutcome where
  | success (result : AIResult)
  | transportError (msg : String)
deriving DecidableEq, Repr

/-- The mutable `analysis_result` dict of the handler: the scorer's fields
plus the optionally-attached `ai_analysis` / `ai_error` keys. -/
structure Analysis where
  status : Status
  confidence : ℚ
  reasons : List String
  scam_indicators : Nat
  legit_indicators : Nat
  ai_analysis : Option AIResult := none
  ai_error : Option String := none
deriving DecidableEq, Repr

/-- The scorer result as the initial `analysis_result` dict (no AI keys). -/
def toAnalysis (r : ScoreResult) : Analysis :=
  ⟨r.status, r.confidence, r.reasons, r.scam_indicators, r.legit_indicators,
   none, none⟩

/-- `product_info` of the response. -/
structure ProductInfo where
  title : String
  url : String
deriving DecidableEq, Repr

/-- The 200 response body of `/analyze-product` (`success` is the literal
`True` of the source). -/
structure AnalysisResponse where
  success : Bool
  analysis : Analysis
  product_info : ProductInfo
deriving DecidableEq, Repr

/-- The `/analyze-product` handler: run the heuristic scorer, then, when
`(title + " " + description).strip()` is truthy, consult the detector
oracle: on success attach `ai_analysis` and, when a `score` field above 0.7
is present, downgrade a `legit` status to `uncertain` with confidence
`max(0.3, confidence - 0.2)` and append "AI-generated content detected";
on transport error attach `ai_error` and keep the heuristic result. -/
def analyze_product (p : ProductAnalysis) (det : DetectorOutcome) :
    AnalysisResponse :=
  let r0 := toAnalysis (analyze_product_legitimacy p)
  let r :=
    if pyStripTruthy (p.title ++ " " ++ p.description) then
      match det with
      | .success ai =>
        let r1 := { r0 with ai_analysis := some ai }
        match ai.score with
        | some sc =>
          if sc > 0.7 then
            let r2 :=
              if r1.status = .legit then
                { r1 with status := .uncertain,
                          confidence := max 0.3 (r1.confidence - 0.2) }
              else r1
            { r2 with reasons := r2.reasons ++ ["AI-generated content detected"] }
          else r1
        | none => r1
      | .transportError msg => { r0 with ai_error := some msg }
    else r0
  ⟨true, r, ⟨p.title, p.url⟩⟩

/-! Helper lemmas about single rules and the accumulated counters. -/

/-- A rule outcome is atomic: it contributes at most one indicator, and
pairs every counter increment with exactly one reason string. -/
def atomicOut (o : RuleOut) : Prop :=
  o.2.2.length = o.1 + o.2.1 ∧ o.1 + o.2.1 ≤ 1

theorem titleRule_atomic (t : String) : atomicOut (titleRule t) := by
  unfold titleRule atomicOut
  split <;> simp

theorem priceRule_atomic (s : String) : atomicOut (priceRule s) := by
  unfold priceRule atomicOut
  cases priceExtract s with
  | none => simp
  | some v => dsimp only; split_ifs <;> simp

theorem sellerRule_atomic (s : String) : atomicOut (sellerRule s) := by
  unfold sellerRule atomicOut
  split_ifs <;> simp_all
  split_ifs <;> simp

theorem ratingRule_atomic (s : String) : atomicOut (ratingRule s) := by
  unfold ratingRule atomicOut
  split_ifs with h
  · simp
  · cases pyFloat? s with
    | none => simp
    | some v => dsimp only; split_ifs <;> simp

theorem reviewsRule_atomic (s : String) : atomicOut (reviewsRule s) := by
  unfold reviewsRule atomicOut
  cases reviewsExtract s with
  | none => simp
  | some v => dsimp only; split_ifs <;> simp

theorem countIndicators_sum_le (p : ProductAnalysis) :
    (countIndicators p).1 + (countIndicators p).2.1 ≤ 5 := by
  have h1 := (titleRule_atomic p.title).2
  have h2 := (priceRule_atomic p.price).2
  have h3 := (sellerRule_atomic p.seller).2
  have h4 := (ratingRule_atomic p.rating).2
  have h5 := (reviewsRule_atomic p.reviews_count).2
  unfold countIndicators combine
  dsimp only
  omega

theorem countIndicators_len (p : ProductAnalysis) :
    (countIndicators p).2.2.length =
      (countIndicators p).1 + (countIndicators p).2.1 := by
  have h1 := (titleRule_atomic p.title).1
  have h2 := (priceRule_atomic p.price).1
  have h3 := (sellerRule_atomic p.seller).1
  have h4 := (ratingRule_atomic p.rating).1
  have h5 := (reviewsRule_atomic p.reviews_count).1
  unfold countIndicators combine
  simp only [List.length_append]
  omega

theorem scorer_fields (p : ProductAnalysis) :
    (analyze_product_legitimacy p).reasons = (countIndicators p).2.2 ∧
    (analyze_product_legitimacy p).scam_indicators = (countIndicators p).1 ∧
    (analyze_product_legitimacy p).legit_indicators = (countIndicators p).2.1 := by
  unfold analyze_product_legitimacy
  rcases countIndicators p with ⟨s, l, rs⟩
  dsimp only
  split_ifs <;> simp

/-! Claim theorems. -/

/-- C1: for every `ProductRecord`, with `s` the scam-indicator count and
`l` the legit-indicator count produced by the five rules,
`analyze_product_legitimacy` returns status `scam` with confidence
`0.7 + 0.05*s` when `s > l`, status `legit` with confidence `0.7 + 0.05*l`
when `l > s`, and status `uncertain` with confidence `0.4` when `s = l`
(including when both are 0). -/
theorem aggregation_of_counts (p : ProductAnalysis) :
    ((analyze_product_legitimacy p).scam_indicators >
        (analyze_product_legitimacy p).legit_indicators →
      (analyze_product_legitimacy p).status = Status.scam ∧
      (analyze_product_legitimacy p).confidence =
        0.7 + ((analyze_product_legitimacy p).scam_indicators : ℚ) * 0.05) ∧
    ((analyze_product_legitimacy p).legit_indicators >
        (analyze_product_legitimacy p).scam_indicators →
      (analyze_product_legitimacy p).status = Status.legit ∧
      (analyze_product_legitimacy p).confidence =
        0.7 + ((analyze_product_legitimacy p).legit_indicators : ℚ) * 0.05) ∧
    ((analyze_product_legitimacy p).scam_indicators =
        (analyze_product_legitimacy p).legit_indicators →
      (analyze_product_legitimacy p).status = Status.uncertain ∧
      (analyze_product_legitimacy p).confidence = 0.4) := by
  unfold analyze_product_legitimacy
  rcases countIndicators p with ⟨s, l, rs⟩
  dsimp only
  split_ifs with h1 h2 <;>
    refine ⟨fun hc => ?_, fun hc => ?_, fun hc => ?_⟩ <;>
    first
      | exact ⟨rfl, rfl⟩
      | (dsimp only at hc; omega)

/-- C1 witness: a title containing "urgent" trips the title rule, so the
scam count (1) exceeds the legit count (0) and the scam branch applies. -/
theorem aggregation_of_counts_witness :
    (analyze_product_legitimacy ⟨"urgent deal", "", "", "", "", "", ""⟩).status =
        Status.scam ∧
    (analyze_product_legitimacy ⟨"urgent deal", "", "", "", "", "", ""⟩).confidence =
      0.7 +
        ((analyze_product_legitimacy
            ⟨"urgent deal", "", "", "", "", "", ""⟩).scam_indicators : ℚ) * 0.05 :=
  (aggregation_of_counts ⟨"urgent deal", "", "", "", "", "", ""⟩).1 (by decide)

/-- C4: a record whose only non-empty field is a title containing none of
the suspicious phrases scores as `uncertain` with confidence 0.4, an empty
reason list and both indicator counts 0. -/
theorem title_only_no_match_uncertain (title : String)
    (h : ∀ w ∈ suspicious_words, occursIn w.data (lowerData title) = false) :
    analyze_product_legitimacy ⟨title, "", "", "", "", "", ""⟩ =
      ⟨Status.uncertain, 0.4, [], 0, 0⟩ := by
  have ht : titleRule title = (0, 0, []) := by
    unfold titleRule
    rw [if_neg]
    simp only [List.any_eq_true, not_exists, not_and]
    intro w hw
    simp [h w hw]
  simp [analyze_product_legitimacy, countIndicators, combine, ht,
    priceRule, priceExtract, sellerRule, ratingRule, reviewsRule,
    reviewsExtract]

/-- C4 witness: the concrete title "Blue Widget" contains no suspicious
phrase, so the scorer returns the uncertain default. -/
theorem title_only_no_match_uncertain_witness :
    analyze_product_legitimacy ⟨"Blue Widget", "", "", "", "", "", ""⟩ =
      ⟨Status.uncertain, 0.4, [], 0, 0⟩ :=
  title_only_no_match_uncertain "Blue Widget" (by decide)

/-- C9: the confidence returned by `analyze_product_legitimacy` always lies
in `[0.4, 0.95]`: each of the five rules increments at most one of the two
counters at most once, so each counter is at most 5 and `0.7 + 0.05*count`
stays within `[0.7, 0.95]`, while the tie branch returns exactly 0.4; the
unclamped formula can therefore never exceed 1.0 through the scorer's
public interface. -/
theorem confidence_bounds (p : ProductAnalysis) :
    0.4 ≤ (analyze_product_legitimacy p).confidence ∧
    (analyze_product_legitimacy p).confidence ≤ 0.95 := by
  have hb := countIndicators_sum_le p
  unfold analyze_product_legitimacy
  rcases h : countIndicators p with ⟨s, l, rs⟩
  rw [h] at hb
  dsimp only at hb ⊢
  have hs : (s : ℚ) ≤ 5 := by exact_mod_cast (by omega : s ≤ 5)
  have hl : (l : ℚ) ≤ 5 := by exact_mod_cast (by omega : l ≤ 5)
  have hs0 : (0 : ℚ) ≤ (s : ℚ) := Nat.cast_nonneg s
  have hl0 : (0 : ℚ) ≤ (l : ℚ) := Nat.cast_nonneg l
  split_ifs <;> dsimp only <;> constructor <;> norm_num <;> linarith

/-- C10: the length of the reasons list equals
`scam_indicators + legit_indicators` — every counter increment appends
exactly one reason — and the reasons appear in rule-evaluation order
(title, price, seller, rating, reviews). -/
theorem reasons_match_counters (p : ProductAnalysis) :
    (analyze_product_legitimacy p).reasons.length =
      (analyze_product_legitimacy p).scam_indicators +
        (analyze_product_legitimacy p).legit_indicators ∧
    (analyze_product_legitimacy p).reasons =
      (titleRule p.title).2.2 ++ (priceRule p.price).2.2 ++
        (sellerRule p.seller).2.2 ++ (ratingRule p.rating).2.2 ++
        (reviewsRule p.reviews_count).2.2 := by
  obtain ⟨hr, hs, hl⟩ := scorer_fields p
  refine ⟨?_, ?_⟩
  · rw [hr, hs, hl]
    exact countIndicators_len p
  · rw [hr]
    unfold countIndicators combine
    simp [List.append_assoc]

/-- C8: `analyze_product_legitimacy` is total (it is a plain Lean function:
no exception or failure is even expressible in its type), and a parse
failure on a malformed rating is swallowed: the record scores exactly as if
the rating field were empty, leaving every other rule unaffected. -/
theorem rating_parse_failure_no_effect (p : ProductAnalysis)
    (h : pyFloat? p.rating = none) :
    analyze_product_legitimacy p =
      analyze_product_legitimacy { p with rating := "" } := by
  have hr : ratingRule p.rating = (0, 0, []) := by
    unfold ratingRule
    split_ifs
    · rfl
    · rw [h]
  have hr2 : ratingRule "" = (0, 0, []) := rfl
  unfold analyze_product_legitimacy countIndicators
  simp [hr, hr2]

/-- C8 witness: the rating "n/a" does not parse as a float, and the scorer
treats the record exactly like one with an empty rating. -/
theorem rating_parse_failure_no_effect_witness :
    analyze_product_legitimacy ⟨"Blue Widget", "", "", "", "n/a", "", ""⟩ =
      analyze_product_legitimacy
        { (⟨"Blue Widget", "", "", "", "n/a", "", ""⟩ : ProductAnalysis) with
          rating := "" } :=
  rating_parse_failure_no_effect ⟨"Blue Widget", "", "", "", "n/a", "", ""⟩
    (by decide)

/-- C5 counterexample: the claim extends the spec's "length < 3" scam
branch to the empty seller string, but the source guards the whole rule
with `if product_data.seller:`, so an empty seller (the absent-field
representation) is skipped entirely: it yields no scam indicator and no
"Suspicious seller" reason, not the claimed `+1` scam. -/
theorem seller_rule_empty_counterexample :
    sellerRule "" ≠ (1, 0, ["Suspicious seller"]) ∧
    sellerRule "" = (0, 0, []) ∧
    (analyze_product_legitimacy ⟨"Blue Widget", "", "", "", "", "", ""⟩).scam_indicators = 0 ∧
    "Suspicious seller" ∉
      (analyze_product_legitimacy ⟨"Blue Widget", "", "", "", "", "", ""⟩).reasons := by
  refine ⟨by decide, rfl, by decide, by decide⟩

/-- C5 (amended): for every NON-empty seller string the three branches
behave as claimed — reputable-marketplace substring → one legit indicator
"Reputable seller"; otherwise lowercased length < 3 or all-digit → one scam
indicator "Suspicious seller"; otherwise no effect — while the empty seller
string (the absent-field representation) skips the rule entirely and has no
effect. -/
theorem seller_rule_branches (s : String) (hne : s ≠ "") :
    ((occursIn "amazon".data (lowerData s) = true ∨
      occursIn "walmart".data (lowerData s) = true ∨
      occursIn "target".data (lowerData s) = true) →
        sellerRule s = (0, 1, ["Reputable seller"])) ∧
    (occursIn "amazon".data (lowerData s) = false →
     occursIn "walmart".data (lowerData s) = false →
     occursIn "target".data (lowerData s) = false →
      (((lowerData s).length < 3 ∨ pyIsDigit (lowerData s) = true) →
        sellerRule s = (1, 0, ["Suspicious seller"])) ∧
      (¬ ((lowerData s).length < 3 ∨ pyIsDigit (lowerData s) = true) →
        sellerRule s = (0, 0, []))) ∧
    sellerRule "" = (0, 0, []) := by
  have hrw : sellerRule s =
      if (occursIn "amazon".data (lowerData s) ||
          occursIn "walmart".data (lowerData s) ||
          occursIn "target".data (lowerData s)) = true then
        (0, 1, ["Reputable seller"])
      else if (decide ((lowerData s).length < 3) ||
          pyIsDigit (lowerData s)) = true then
        (1, 0, ["Suspicious seller"])
      else (0, 0, []) := by
    unfold sellerRule
    rw [if_neg hne]
  refine ⟨fun hrep => ?_, fun h1 h2 h3 => ⟨fun hsus => ?_, fun hnot => ?_⟩, rfl⟩
  · rw [hrw, if_pos]
    rcases hrep with h | h | h <;> simp [h]
  · rw [hrw, if_neg, if_pos]
    · simpa using hsus
    · simp [h1, h2, h3]
  · rw [hrw, if_neg, if_neg]
    · simpa using hnot
    · simp [h1, h2, h3]

/-- C5 witness: the all-digit seller "42" takes the scam branch of the
amended rule. -/
theorem seller_rule_branches_witness :
    sellerRule "42" = (1, 0, ["Suspicious seller"]) :=
  ((seller_rule_branches "42" (by decide)).2.1 (by decide) (by decide)
    (by decide)).1 (by decide)

/-- C3: when the detector call (performed because the combined
title-and-description text is non-blank) raises a transport error, the
handler does not fail: it returns the success response (`success = true`,
the HTTP 200 body) whose analysis carries the error message under
`ai_error`, with status, confidence, reasons and indicator counts exactly
those of the heuristic scorer alone, and no `ai_analysis` attached. -/
theorem transport_error_degrades_gracefully (p : ProductAnalysis)
    (msg : String)
    (hcall : pyStripTruthy (p.title ++ " " ++ p.description) = true) :
    analyze_product p (.transportError msg) =
      ⟨true,
       { toAnalysis (analyze_product_legitimacy p) with ai_error := some msg },
       ⟨p.title, p.url⟩⟩ := by
  simp [analyze_product, hcall]

/-- C3 witness: a record with a non-blank title and an unreachable detector
yields the heuristic-only result with the error message attached. -/
theorem transport_error_degrades_gracefully_witness :
    analyze_product ⟨"Blue Widget", "", "", "", "", "", ""⟩
        (.transportError "connection refused") =
      ⟨true,
       { toAnalysis
           (analyze_product_legitimacy ⟨"Blue Widget", "", "", "", "", "", ""⟩) with
         ai_error := some "connection refused" },
       ⟨"Blue Widget", ""⟩⟩ :=
  transport_error_degrades_gracefully ⟨"Blue Widget", "", "", "", "", "", ""⟩
    "connection refused" (by decide)

/-- C2: when the detector call (performed because the combined text is
non-blank) succeeds with a numeric `score` field: if the score exceeds 0.7
and the heuristic status is `legit`, the status is downgraded to
`uncertain`, the confidence becomes `max(0.3, confidence - 0.2)` and the
reason "AI-generated content detected" is appended; if the score exceeds
0.7 but the status is `scam` or `uncertain`, only the reason is appended;
if the score is 0.7 or less, status, confidence and reasons are unchanged
(in every case the raw result is attached under `ai_analysis`). -/
theorem ai_score_adjustment (p : ProductAnalysis) (ai : AIResult) (sc : ℚ)
    (hcall : pyStripTruthy (p.title ++ " " ++ p.description) = true)
    (hscore : ai.score = some sc) :
    (sc > 0.7 → (analyze_product_legitimacy p).status = Status.legit →
      (analyze_product p (.success ai)).analysis =
        { toAnalysis (analyze_product_legitimacy p) with
          status := Status.uncertain,
          confidence :=
            max 0.3 ((analyze_product_legitimacy p).confidence - 0.2),
          reasons := (analyze_product_legitimacy p).reasons ++
            ["AI-generated content detected"],
          ai_analysis := some ai }) ∧
    (sc > 0.7 → (analyze_product_legitimacy p).status ≠ Status.legit →
      (analyze_product p (.success ai)).analysis =
        { toAnalysis (analyze_product_legitimacy p) with
          reasons := (analyze_product_legitimacy p).reasons ++
            ["AI-generated content detected"],
          ai_analysis := some ai }) ∧
    (sc ≤ 0.7 →
      (analyze_product p (.success ai)).analysis =
        { toAnalysis (analyze_product_legitimacy p) with
          ai_analysis := some ai }) := by
  refine ⟨fun hsc hst => ?_, fun hsc hst => ?_, fun hsc => ?_⟩ <;>
    simp only [analyze_product, hcall, if_true, hscore, toAnalysis]
  · rw [if_pos hsc, if_pos hst]
  · rw [if_pos hsc, if_neg hst]
  · rw [if_neg (not_lt.mpr hsc)]

/-- C2 witness: a record whose seller "amazon" makes the heuristic status
`legit`, combined with a detector score of 0.9, is downgraded to
`uncertain` with the reduced confidence and the appended reason. -/
theorem ai_score_adjustment_witness :
    (analyze_product ⟨"Nice thing", "", "", "amazon", "", "", ""⟩
        (.success ⟨some 0.9⟩)).analysis =
      { toAnalysis
          (analyze_product_legitimacy
            ⟨"Nice thing", "", "", "amazon", "", "", ""⟩) with
        status := Status.uncertain,
        confidence :=
          max 0.3
            ((analyze_product_legitimacy
                ⟨"Nice thing", "", "", "amazon", "", "", ""⟩).confidence - 0.2),
        reasons :=
          (analyze_product_legitimacy
              ⟨"Nice thing", "", "", "amazon", "", "", ""⟩).reasons ++
            ["AI-generated content detected"],
        ai_analysis := some ⟨some 0.9⟩ } :=
  (ai_score_adjustment ⟨"Nice thing", "", "", "amazon", "", "", ""⟩
      ⟨some 0.9⟩ 0.9 (by decide) rfl).1 (by norm_num) (by decide)

/-- C7: the review-count rule parses the first digit run of the
comma-stripped field as an integer; a value below 5 adds one scam indicator
"Few reviews", a value above 50 adds one legit indicator "Many reviews",
anything else — including a field with no digits at all — has no effect.
Reviews "3" trigger the scam branch and reviews "1,200" the legit one. -/
theorem reviews_rule_thresholds :
    (∀ s v, reviewsExtract s = some v →
      reviewsRule s =
        if v < 5 then (1, 0, ["Few reviews"])
        else if v > 50 then (0, 1, ["Many reviews"])
        else (0, 0, [])) ∧
    (∀ s, reviewsExtract s = none → reviewsRule s = (0, 0, [])) ∧
    reviewsRule "3" = (1, 0, ["Few reviews"]) ∧
    reviewsRule "1,200" = (0, 1, ["Many reviews"]) := by
  refine ⟨fun s v h => ?_, fun s h => ?_, by decide, by decide⟩ <;>
    unfold reviewsRule <;> rw [h]

/-- C7 witness: the in-range review count "10" leaves the counters
untouched. -/
theorem reviews_rule_thresholds_witness : reviewsRule "10" = (0, 0, []) := by
  have h := reviews_rule_thresholds.1 "10" 10 (by decide)
  simpa using h

/-- C6: the price rule extracts the first numeric token of the price after
stripping `$` and `,`; a value strictly below 1.0 adds one scam indicator
"Low price", strictly above 1000 one legit indicator "Normal price", and
otherwise — including a price with no parseable number — it has no effect
(and, being a total function, raises nothing).  Price "$0.50" trips the
scam branch, "$1500" the legit branch, and "abc" has no effect. -/
theorem price_rule_thresholds :
    (∀ s v, priceExtract s = some v →
      priceRule s =
        if v < 1 then (1, 0, ["Low price"])
        else if v > 1000 then (0, 1, ["Normal price"])
        else (0, 0, [])) ∧
    (∀ s, priceExtract s = none → priceRule s = (0, 0, [])) ∧
    priceRule "$0.50" = (1, 0, ["Low price"]) ∧
    priceRule "$1500" = (0, 1, ["Normal price"]) ∧
    priceRule "abc" = (0, 0, []) := by
  have h050 : priceExtract "$0.50" = some ((0 : ℚ) + 50 / 10 ^ 2) := by
    have h1 : stripDollarComma "$0.50" = ['0', '.', '5', '0'] := by decide
    have h2 : parseDigits ['0', '.', '5', '0'] = (['0'], ['.', '5', '0']) := by
      decide
    have h3 : parseDigits ['5', '0'] = (['5', '0'], []) := by decide
    have h4 : digitsVal ['0'] = 0 := by decide
    have h5 : digitsVal ['5', '0'] = 50 := by decide
    have h6 : Char.isDigit '0' = true := by decide
    unfold priceExtract
    rw [if_neg (by decide), h1]
    simp [firstNumberVal, h2, h3, h4, h5, h6]
  have h1500 : priceExtract "$1500" = some 1500 := by
    have h1 : stripDollarComma "$1500" = ['1', '5', '0', '0'] := by decide
    have h2 : parseDigits ['1', '5', '0', '0'] = (['1', '5', '0', '0'], []) := by
      decide
    have h4 : digitsVal ['1', '5', '0', '0'] = 1500 := by decide
    have h6 : Char.isDigit '1' = true := by decide
    unfold priceExtract
    rw [if_neg (by decide), h1]
    simp [firstNumberVal, h2, h4, h6]
  have habc : priceExtract "abc" = none := by decide
  refine ⟨fun s v h => ?_, fun s h => ?_, ?_, ?_, ?_⟩
  · unfold priceRule; rw [h]
  · unfold priceRule; rw [h]
  · unfold priceRule
    rw [h050]
    dsimp only
    rw [if_pos (by norm_num)]
  · unfold priceRule
    rw [h1500]
    dsimp only
    rw [if_neg (by norm_num), if_pos (by norm_num)]
  · unfold priceRule; rw [habc]

/-- C6 witness: the in-range price "$5" leaves the counters untouched. -/
theorem price_rule_thresholds_witness : priceRule "$5" = (0, 0, []) := by
  have h5 : priceExtract "$5" = some 5 := by
    have h1 : stripDollarComma "$5" = ['5'] := by decide
    have h2 : parseDigits ['5'] = (['5'], []) := by decide
    have h4 : digitsVal ['5'] = 5 := by decide
    have h6 : Char.isDigit '5' = true := by decide
    unfold priceExtract
    rw [if_neg (by decide), h1]
    simp [firstNumberVal, h2, h4, h6]
  have h := price_rule_thresholds.1 "$5" 5 h5
  rw [h, if_neg (by norm_num), if_neg (by norm_num)]
